import Mathlib

/-!
Verification of the Xen PCI-passthrough configuration-space virtualization
engine (`hw/xen/xen_pt_config_init.c`, `hw/xen/xen-host-pci-device.c`).

Machine integers are modelled as `Nat` with explicit widths: a C value of
type `uintN_t` is a `Nat` below `2 ^ N`, the C bitwise complement `~x` at
width `w` is `complW w x`, and truncation on assignment is `&&& maskW w`.
External host-device reads (`xen_host_pci_get_{byte,word,long}`) are
modelled by oracle functions `Nat → Option Nat` (`none` = I/O failure,
matching a non-zero `rc`).
-/

/-! ## PCI constants

Values of the standard PCI constants used by the two source files.  They are
declared in headers outside the two translation units (`pci_regs.h`,
`pcie_regs.h`); the values below are the standard PCI register numbers. -/

def PCI_STATUS : Nat := 0x06

def PCI_STATUS_CAP_LIST : Nat := 0x10

def PCI_CAPABILITY_LIST : Nat := 0x34

def PCI_CAP_LIST_ID : Nat := 0

def PCI_CAP_LIST_NEXT : Nat := 1

def PCI_CONFIG_SPACE_SIZE : Nat := 0x100

def PCIE_CONFIG_SPACE_SIZE : Nat := 0x1000

def PCI_MSI_FLAGS_ENABLE : Nat := 0x0001

def PCI_MSI_FLAGS_QSIZE : Nat := 0x0070

def PCI_MSI_FLAGS_64BIT : Nat := 0x0080

def PCI_MSI_FLAGS_MASKBIT : Nat := 0x0100

/-- `#define XEN_PT_INVALID_REG 0xFFFFFFFF` (invalid register value). -/
def XEN_PT_INVALID_REG : Nat := 0xFFFFFFFF

/-- Modelled from the spec: the wildcard capability id (`id_or_wildcard`) of
the capability-search interface; declared as all-ones in a header outside
the provided sources. -/
def CAP_ID_ANY : Nat := 0xFFFFFFFF

/-- `#define XEN_HOST_PCI_CAP_MAX 48` — hop bound of the legacy walk. -/
def XEN_HOST_PCI_CAP_MAX : Nat := 48

/-! ## Fixed-width bit arithmetic helpers -/

/-- All-ones mask of width `w` (the value of `(uintW_t)~0`). -/
def maskW (w : Nat) : Nat := 2 ^ w - 1

/-- C bitwise complement `~m` at width `w`. -/
def complW (w m : Nat) : Nat := maskW w ^^^ (m &&& maskW w)

/-- `#define XEN_PT_MERGE_VALUE(value, data, val_mask)
      (((value) & (val_mask)) | ((data) & ~(val_mask)))`
at width `w`. -/
def mergeValue (w value data val_mask : Nat) : Nat :=
  (value &&& val_mask) ||| (data &&& complW w val_mask)

theorem testBit_maskW {w i : Nat} : (maskW w).testBit i = decide (i < w) :=
  Nat.testBit_two_pow_sub_one w i

theorem testBit_complW {w m i : Nat} (h : i < w) :
    (complW w m).testBit i = !m.testBit i := by
  simp [complW, Nat.testBit_xor, Nat.testBit_land, testBit_maskW, h]

theorem testBit_mergeValue {w v d m i : Nat} (h : i < w) :
    (mergeValue w v d m).testBit i
      = (v.testBit i && m.testBit i || d.testBit i && !m.testBit i) := by
  simp [mergeValue, Nat.testBit_lor, Nat.testBit_land, testBit_complW h]

/-! ## Register descriptors (`XenPTRegInfo`)

Only the data fields are carried; the `init`/`u.{b,w,dw}.read`/`write`
behavior pointers of the C structure are modelled by the named Lean
functions below (`xen_pt_word_reg_write`, `xen_pt_status_reg_init`, ...). -/

structure XenPTRegInfo where
  offset : Nat := 0
  size : Nat
  init_val : Nat := 0
  res_mask : Nat := 0
  ro_mask : Nat := 0
  rw1c_mask : Nat := 0
  emu_mask : Nat := 0
deriving DecidableEq

/-- `get_throughable_mask`, at width `w` (the C computes in `uint32_t` and
truncates to the caller's register width; for masks below `2 ^ w` the two
agree). -/
def get_throughable_mask (w : Nat) (permissive : Bool) (reg : XenPTRegInfo)
    (valid_mask : Nat) : Nat :=
  let throughable_mask := complW w (reg.emu_mask ||| reg.ro_mask)
  let throughable_mask :=
    if !permissive then throughable_mask &&& complW w reg.res_mask
    else throughable_mask
  throughable_mask &&& valid_mask

/-! ## Generic read functions

`value` carries the hardware value just read by the caller; `data` is the
software-held copy (`*cfg_entry->ptr`).  The result is the value presented
to the guest. -/

/-- `xen_pt_byte_reg_read`. -/
def xen_pt_byte_reg_read (reg : XenPTRegInfo) (data value valid_mask : Nat) :
    Nat :=
  let valid_emu_mask := reg.emu_mask &&& valid_mask
  mergeValue 8 value data (complW 8 valid_emu_mask)

/-- `xen_pt_word_reg_read`. -/
def xen_pt_word_reg_read (reg : XenPTRegInfo) (data value valid_mask : Nat) :
    Nat :=
  let valid_emu_mask := reg.emu_mask &&& valid_mask
  mergeValue 16 value data (complW 16 valid_emu_mask)

/-- `xen_pt_long_reg_read`. -/
def xen_pt_long_reg_read (reg : XenPTRegInfo) (data value valid_mask : Nat) :
    Nat :=
  let valid_emu_mask := reg.emu_mask &&& valid_mask
  mergeValue 32 value data (complW 32 valid_emu_mask)

/-! ## Generic write functions

Each returns `(data', val')`: the new software-held copy and the value the
caller forwards to the hardware device. -/

/-- `xen_pt_byte_reg_write`. -/
def xen_pt_byte_reg_write (permissive : Bool) (reg : XenPTRegInfo)
    (data val dev_value valid_mask : Nat) : Nat × Nat :=
  let throughable_mask := get_throughable_mask 8 permissive reg valid_mask
  let writable_mask := reg.emu_mask &&& complW 8 reg.ro_mask &&& valid_mask
  let data' := mergeValue 8 val data writable_mask
  let val' := mergeValue 8 val (dev_value &&& complW 8 reg.rw1c_mask)
      throughable_mask
  (data', val')

/-- `xen_pt_word_reg_write`. -/
def xen_pt_word_reg_write (permissive : Bool) (reg : XenPTRegInfo)
    (data val dev_value valid_mask : Nat) : Nat × Nat :=
  let throughable_mask := get_throughable_mask 16 permissive reg valid_mask
  let writable_mask := reg.emu_mask &&& complW 16 reg.ro_mask &&& valid_mask
  let data' := mergeValue 16 val data writable_mask
  let val' := mergeValue 16 val (dev_value &&& complW 16 reg.rw1c_mask)
      throughable_mask
  (data', val')

/-- `xen_pt_long_reg_write`. -/
def xen_pt_long_reg_write (permissive : Bool) (reg : XenPTRegInfo)
    (data val dev_value valid_mask : Nat) : Nat × Nat :=
  let throughable_mask := get_throughable_mask 32 permissive reg valid_mask
  let writable_mask := reg.emu_mask &&& complW 32 reg.ro_mask &&& valid_mask
  let data' := mergeValue 32 val data writable_mask
  let val' := mergeValue 32 val (dev_value &&& complW 32 reg.rw1c_mask)
      throughable_mask
  (data', val')

/-- The hardware-bound value as the specification's words describe it:
`merge(guest_value & ~rw1c_mask, current_hardware_value, throughable_mask)`.
Defined from the spec sentence (not from the source) for comparison with
`xen_pt_word_reg_write`. -/
def specHardwareForward (w : Nat) (permissive : Bool) (reg : XenPTRegInfo)
    (val dev_value valid_mask : Nat) : Nat :=
  mergeValue w (val &&& complW w reg.rw1c_mask) dev_value
    (get_throughable_mask w permissive reg valid_mask)

/-- Bit of the claimed throughable mask, written out from the claim's words:
`~(emu_mask | ro_mask) & valid_mask`, narrowed by `& ~res_mask` when not
permissive. -/
def throughableBit (permissive : Bool) (reg : XenPTRegInfo)
    (valid_mask : Nat) (i : Nat) : Bool :=
  !(reg.emu_mask.testBit i || reg.ro_mask.testBit i) && valid_mask.testBit i
    && (permissive || !reg.res_mask.testBit i)

theorem testBit_get_throughable_mask {w : Nat} (permissive : Bool)
    (reg : XenPTRegInfo) (valid_mask : Nat) {i : Nat} (h : i < w) :
    (get_throughable_mask w permissive reg valid_mask).testBit i
      = throughableBit permissive reg valid_mask i := by
  cases permissive <;>
    simp [get_throughable_mask, throughableBit, Nat.testBit_land,
      Nat.testBit_lor, testBit_complW h] <;>
    cases reg.emu_mask.testBit i <;> cases reg.ro_mask.testBit i <;>
    cases reg.res_mask.testBit i <;> cases valid_mask.testBit i <;> rfl

/-! ## Header Type0 register table (`xen_pt_emu_reg_header0`) -/

def xen_pt_vendor_id_reg : XenPTRegInfo :=
  { offset := 0x00, size := 2, init_val := 0x0000, ro_mask := 0xFFFF,
    emu_mask := 0xFFFF }

def xen_pt_device_id_reg : XenPTRegInfo :=
  { offset := 0x02, size := 2, init_val := 0x0000, ro_mask := 0xFFFF,
    emu_mask := 0xFFFF }

def xen_pt_command_reg : XenPTRegInfo :=
  { offset := 0x04, size := 2, init_val := 0x0000, res_mask := 0xF880,
    emu_mask := 0x0743 }

def xen_pt_cap_ptr_reg : XenPTRegInfo :=
  { offset := PCI_CAPABILITY_LIST, size := 1, init_val := 0x00,
    ro_mask := 0xFF, emu_mask := 0xFF }

def xen_pt_status_reg : XenPTRegInfo :=
  { offset := PCI_STATUS, size := 2, init_val := 0x0000, res_mask := 0x0007,
    ro_mask := 0x06F8, rw1c_mask := 0xF900, emu_mask := 0x0010 }

def xen_pt_cache_line_reg : XenPTRegInfo :=
  { offset := 0x0C, size := 1, init_val := 0x00, ro_mask := 0x00,
    emu_mask := 0xFF }

def xen_pt_latency_timer_reg : XenPTRegInfo :=
  { offset := 0x0D, size := 1, init_val := 0x00, ro_mask := 0x00,
    emu_mask := 0xFF }

def xen_pt_header_type_reg : XenPTRegInfo :=
  { offset := 0x0E, size := 1, init_val := 0x00, ro_mask := 0xFF,
    emu_mask := 0x00 }

def xen_pt_intr_line_reg : XenPTRegInfo :=
  { offset := 0x3C, size := 1, init_val := 0x00, ro_mask := 0x00,
    emu_mask := 0xFF }

def xen_pt_intr_pin_reg : XenPTRegInfo :=
  { offset := 0x3D, size := 1, init_val := 0x00, ro_mask := 0xFF,
    emu_mask := 0xFF }

def xen_pt_bar_reg (slot : Nat) : XenPTRegInfo :=
  { offset := 0x10 + 4 * slot, size := 4, init_val := 0x00000000 }

def xen_pt_exp_rom_bar_reg : XenPTRegInfo :=
  { offset := 0x30, size := 4, init_val := 0x00000000, ro_mask := 0x7FE,
    emu_mask := 0xFFFFF800 }

def xen_pt_emu_reg_header0 : List XenPTRegInfo :=
  [xen_pt_vendor_id_reg, xen_pt_device_id_reg, xen_pt_command_reg,
   xen_pt_cap_ptr_reg, xen_pt_status_reg, xen_pt_cache_line_reg,
   xen_pt_latency_timer_reg, xen_pt_header_type_reg, xen_pt_intr_line_reg,
   xen_pt_intr_pin_reg, xen_pt_bar_reg 0, xen_pt_bar_reg 1, xen_pt_bar_reg 2,
   xen_pt_bar_reg 3, xen_pt_bar_reg 4, xen_pt_bar_reg 5,
   xen_pt_exp_rom_bar_reg]

/-! ## Capability register tables -/

/-- The Next Pointer register shared by all legacy capability tables. -/
def xen_pt_next_ptr_reg : XenPTRegInfo :=
  { offset := PCI_CAP_LIST_NEXT, size := 1, init_val := 0x00, ro_mask := 0xFF,
    emu_mask := 0xFF }

def xen_pt_emu_reg_pm : List XenPTRegInfo :=
  [xen_pt_next_ptr_reg,
   { offset := 0x02, size := 2, init_val := 0x0000, ro_mask := 0xFFFF,
     emu_mask := 0xF9C8 },
   { offset := 0x04, size := 2, init_val := 0x0008, res_mask := 0x00F0,
     ro_mask := 0x610C, rw1c_mask := 0x8000, emu_mask := 0x810B }]

def xen_pt_emu_reg_vpd : List XenPTRegInfo :=
  [xen_pt_next_ptr_reg,
   { offset := 0x02, size := 2, ro_mask := 0x0003, emu_mask := 0x0003 }]

def xen_pt_emu_reg_vendor : List XenPTRegInfo :=
  [xen_pt_next_ptr_reg]

def xen_pt_emu_reg_pcie : List XenPTRegInfo :=
  [xen_pt_next_ptr_reg,
   { offset := 0x02, size := 2, init_val := 0x0000, ro_mask := 0xFFFF,
     emu_mask := 0xFFFF },
   { offset := 0x04, size := 4, init_val := 0x00000000,
     ro_mask := 0xFFFFFFFF, emu_mask := 0x10000000 },
   { offset := 0x08, size := 2, init_val := 0x2810, ro_mask := 0x8400,
     emu_mask := 0xFFFF },
   { offset := 0x0A, size := 2, res_mask := 0xFFC0, ro_mask := 0x0030,
     rw1c_mask := 0x000F },
   { offset := 0x10, size := 2, init_val := 0x0000, ro_mask := 0xFC34,
     emu_mask := 0xFFFF },
   { offset := 0x12, size := 2, ro_mask := 0x3FFF, rw1c_mask := 0xC000 },
   { offset := 0x28, size := 2, init_val := 0x0000, ro_mask := 0xFFE0,
     emu_mask := 0xFFFF },
   { offset := 0x30, size := 2, init_val := 0x0000, ro_mask := 0xE040,
     emu_mask := 0xFFFF }]

/-- MSI Message Control register descriptor. -/
def xen_pt_msgctrl_reg : XenPTRegInfo :=
  { offset := 0x02, size := 2, init_val := 0x0000, res_mask := 0xFE00,
    ro_mask := 0x018E, emu_mask := 0x017E }

/-- MSI Message Upper Address register descriptor. -/
def xen_pt_msgaddr64_reg : XenPTRegInfo :=
  { offset := 0x08, size := 4, init_val := 0x00000000, ro_mask := 0x00000000,
    emu_mask := 0xFFFFFFFF }

def xen_pt_emu_reg_msi : List XenPTRegInfo :=
  [xen_pt_next_ptr_reg,
   xen_pt_msgctrl_reg,
   { offset := 0x04, size := 4, init_val := 0x00000000,
     ro_mask := 0x00000003, emu_mask := 0xFFFFFFFF },
   xen_pt_msgaddr64_reg,
   { offset := 0x08, size := 2, init_val := 0x0000, ro_mask := 0x0000,
     emu_mask := 0xFFFF },
   { offset := 0x0C, size := 2, init_val := 0x0000, ro_mask := 0x0000,
     emu_mask := 0xFFFF },
   { offset := 0x0C, size := 4, init_val := 0x00000000,
     ro_mask := 0xFFFFFFFF, emu_mask := 0xFFFFFFFF },
   { offset := 0x10, size := 4, init_val := 0x00000000,
     ro_mask := 0xFFFFFFFF, emu_mask := 0xFFFFFFFF },
   { offset := 0x10, size := 4, init_val := 0x00000000,
     ro_mask := 0xFFFFFFFF, emu_mask := 0x00000000 },
   { offset := 0x14, size := 4, init_val := 0x00000000,
     ro_mask := 0xFFFFFFFF, emu_mask := 0x00000000 }]

def xen_pt_emu_reg_msix : List XenPTRegInfo :=
  [xen_pt_next_ptr_reg,
   { offset := 0x02, size := 2, init_val := 0x0000, res_mask := 0x3800,
     ro_mask := 0x07FF, emu_mask := 0x0000 }]

def xen_pt_emu_reg_igd_opregion : List XenPTRegInfo :=
  [{ offset := 0x0, size := 4, init_val := 0, emu_mask := 0xFFFFFFFF }]

def xen_pt_ext_cap_emu_reg_vendor : List XenPTRegInfo :=
  [{ offset := 0x00, size := 2, init_val := 0x0000, ro_mask := 0xFFFF,
     emu_mask := 0xFFFF },
   { offset := 0x02, size := 2, init_val := 0x0000, ro_mask := 0xFFFF,
     emu_mask := 0xFFFF },
   { offset := 0x04, size := 4, init_val := 0x00000000,
     ro_mask := 0xFFFFFFFF, emu_mask := 0x00000000 }]

/-- Common table for all pass-through extended capabilities: only the
Extended Cap ID and Next pointer are handled. -/
def xen_pt_ext_cap_emu_reg_dummy : List XenPTRegInfo :=
  [{ offset := 0x00, size := 2, init_val := 0x0000, ro_mask := 0xFFFF,
     emu_mask := 0xFFFF },
   { offset := 0x02, size := 2, init_val := 0x0000, ro_mask := 0xFFFF,
     emu_mask := 0xFFFF }]

/-! ## Claims C1, C5, C8: the read/write merge algorithm -/

/-- Bit of the hardware-bound value produced by the generic write functions,
at any width: throughable bits come from the guest value, all other bits
from the current hardware value with write-1-to-clear bits stripped. -/
theorem forward_value_testBit {w : Nat} (permissive : Bool)
    (reg : XenPTRegInfo) (val dev_value valid_mask : Nat) {i : Nat}
    (h : i < w) :
    (mergeValue w val (dev_value &&& complW w reg.rw1c_mask)
        (get_throughable_mask w permissive reg valid_mask)).testBit i
      = if throughableBit permissive reg valid_mask i then val.testBit i
        else (dev_value.testBit i && !reg.rw1c_mask.testBit i) := by
  rw [testBit_mergeValue h, Nat.testBit_land, testBit_complW h,
    testBit_get_throughable_mask permissive reg valid_mask h]
  cases throughableBit permissive reg valid_mask i <;> simp

/-- C1 (counterexample): for the Status register (a register with
write-1-to-clear bits, written through the generic word write function),
guest value `0x8000`, hardware value `0`, `valid_mask = 0xFFFF`,
non-permissive mode, the value forwarded to hardware is `0x8000`, while the
claim's formula `merge(guest_value & ~rw1c_mask, hardware_value,
throughable_mask)` yields `0`; in particular bit 15, a write-1-to-clear
bit, IS set in the hardware-bound value produced by the merge. -/
theorem C1_counterexample :
    (xen_pt_word_reg_write false xen_pt_status_reg 0 0x8000 0 0xFFFF).2
        = 0x8000
      ∧ specHardwareForward 16 false xen_pt_status_reg 0x8000 0 0xFFFF = 0
      ∧ (0x8000 : Nat) ≠ 0
      ∧ xen_pt_status_reg.rw1c_mask.testBit 15 = true
      ∧ ((xen_pt_word_reg_write false xen_pt_status_reg 0 0x8000 0
            0xFFFF).2).testBit 15 = true := by
  refine ⟨by decide, by decide, by decide, by decide, by decide⟩

/-- C1 (amended): for every guest write handled by the generic
byte/word/long write functions, the value forwarded to the hardware device
equals `merge(guest_value, current_hardware_value & ~rw1c_mask,
throughable_mask)` with `throughable_mask = ~(emu_mask | ro_mask) &
valid_mask`, narrowed by `& ~res_mask` when not permissive: bit by bit, a
throughable bit comes from the guest value (including guest-written
write-1-to-clear bits, which must reach hardware to perform the clear), and
every other bit is the current hardware value with write-1-to-clear bits
stripped, so hardware-set write-1-to-clear bits are never echoed back by
this merge. -/
theorem C1_hardware_forward_value (permissive : Bool) (reg : XenPTRegInfo)
    (data val dev_value valid_mask i : Nat) :
    (i < 8 →
      ((xen_pt_byte_reg_write permissive reg data val dev_value
          valid_mask).2).testBit i
        = if throughableBit permissive reg valid_mask i then val.testBit i
          else (dev_value.testBit i && !reg.rw1c_mask.testBit i))
    ∧ (i < 16 →
      ((xen_pt_word_reg_write permissive reg data val dev_value
          valid_mask).2).testBit i
        = if throughableBit permissive reg valid_mask i then val.testBit i
          else (dev_value.testBit i && !reg.rw1c_mask.testBit i))
    ∧ (i < 32 →
      ((xen_pt_long_reg_write permissive reg data val dev_value
          valid_mask).2).testBit i
        = if throughableBit permissive reg valid_mask i then val.testBit i
          else (dev_value.testBit i && !reg.rw1c_mask.testBit i)) :=
  ⟨fun h => forward_value_testBit permissive reg val dev_value valid_mask h,
   fun h => forward_value_testBit permissive reg val dev_value valid_mask h,
   fun h => forward_value_testBit permissive reg val dev_value valid_mask h⟩

theorem C1_hardware_forward_value_witness :
    (15 : Nat) < 16
    ∧ ((xen_pt_word_reg_write false xen_pt_status_reg 0 0x8000 0
          0xFFFF).2).testBit 15
        = if throughableBit false xen_pt_status_reg 0xFFFF 15 then
            Nat.testBit 0x8000 15
          else (Nat.testBit 0 15 && !xen_pt_status_reg.rw1c_mask.testBit 15) :=
  ⟨by decide,
   (C1_hardware_forward_value false xen_pt_status_reg 0 0x8000 0 0xFFFF
      15).2.1 (by decide)⟩

/-- C5 (confirmed): for every emulated register read through the generic
long read function (and likewise the byte/word variants), the value
presented to the guest takes every bit of `emu_mask & valid_mask` from the
software-held copy and every other bit from the hardware value passed in:
`merge(hardware_value, software_copy, ~(emu_mask & valid_mask))`. -/
theorem C5_read_merge (reg : XenPTRegInfo) (data value valid_mask i : Nat) :
    (i < 8 →
      (xen_pt_byte_reg_read reg data value valid_mask).testBit i
        = if reg.emu_mask.testBit i && valid_mask.testBit i then
            data.testBit i
          else value.testBit i)
    ∧ (i < 16 →
      (xen_pt_word_reg_read reg data value valid_mask).testBit i
        = if reg.emu_mask.testBit i && valid_mask.testBit i then
            data.testBit i
          else value.testBit i)
    ∧ (i < 32 →
      (xen_pt_long_reg_read reg data value valid_mask).testBit i
        = if reg.emu_mask.testBit i && valid_mask.testBit i then
            data.testBit i
          else value.testBit i) := by
  refine ⟨fun h => ?_, fun h => ?_, fun h => ?_⟩ <;>
    [skip; skip; skip] <;>
    simp only [xen_pt_byte_reg_read, xen_pt_word_reg_read,
      xen_pt_long_reg_read, testBit_mergeValue h, testBit_complW h,
      Nat.testBit_land] <;>
    cases he : (reg.emu_mask.testBit i && valid_mask.testBit i) <;> simp [he]

theorem C5_read_merge_witness :
    (4 : Nat) < 32
    ∧ (xen_pt_long_reg_read xen_pt_msgaddr64_reg 0xDEADBEEF 0 0xFFFFFFFF
        ).testBit 4
      = if xen_pt_msgaddr64_reg.emu_mask.testBit 4
            && Nat.testBit 0xFFFFFFFF 4 then
          Nat.testBit 0xDEADBEEF 4
        else Nat.testBit 0 4 :=
  ⟨by decide,
   (C5_read_merge xen_pt_msgaddr64_reg 0xDEADBEEF 0 0xFFFFFFFF 4).2.2
     (by decide)⟩

/-- C8 (confirmed): round trip through the generic word write then word
read.  A bit inside `emu_mask & ~ro_mask` and inside both valid masks reads
back as the guest-written bit, independent of the hardware value supplied
at read time; a bit outside `emu_mask | ro_mask` reads back as the hardware
value supplied at read time. -/
theorem C8_write_read_round_trip (permissive : Bool) (reg : XenPTRegInfo)
    (data val dev_value valid_w hw valid_r i : Nat) :
    (i < 16 → reg.emu_mask.testBit i = true → reg.ro_mask.testBit i = false →
      valid_w.testBit i = true → valid_r.testBit i = true →
      (xen_pt_word_reg_read reg
          (xen_pt_word_reg_write permissive reg data val dev_value
            valid_w).1 hw valid_r).testBit i
        = val.testBit i)
    ∧ (i < 16 → reg.emu_mask.testBit i = false →
        reg.ro_mask.testBit i = false →
      (xen_pt_word_reg_read reg
          (xen_pt_word_reg_write permissive reg data val dev_value
            valid_w).1 hw valid_r).testBit i
        = hw.testBit i) := by
  constructor
  · intro h hemu hro hvw hvr
    simp [xen_pt_word_reg_read, xen_pt_word_reg_write,
      testBit_mergeValue h, testBit_complW h, Nat.testBit_land,
      hemu, hro, hvw, hvr]
  · intro h hemu _
    simp [xen_pt_word_reg_read, xen_pt_word_reg_write,
      testBit_mergeValue h, testBit_complW h, Nat.testBit_land, hemu]

theorem C8_write_read_round_trip_witness :
    ((4 : Nat) < 16
      ∧ xen_pt_msgctrl_reg.emu_mask.testBit 4 = true
      ∧ xen_pt_msgctrl_reg.ro_mask.testBit 4 = false
      ∧ Nat.testBit 0xFFFF 4 = true
      ∧ (xen_pt_word_reg_read xen_pt_msgctrl_reg
          (xen_pt_word_reg_write false xen_pt_msgctrl_reg 0 0x0010 0
            0xFFFF).1 0 0xFFFF).testBit 4
        = Nat.testBit 0x0010 4)
    ∧ ((13 : Nat) < 16
      ∧ xen_pt_msgctrl_reg.emu_mask.testBit 13 = false
      ∧ (xen_pt_word_reg_read xen_pt_msgctrl_reg
          (xen_pt_word_reg_write false xen_pt_msgctrl_reg 0 0x0010 0
            0xFFFF).1 0x2000 0xFFFF).testBit 13
        = Nat.testBit 0x2000 13) :=
  ⟨⟨by decide, by decide, by decide, by decide,
    (C8_write_read_round_trip false xen_pt_msgctrl_reg 0 0x0010 0 0xFFFF 0
        0xFFFF 4).1 (by decide) (by decide) (by decide) (by decide)
        (by decide)⟩,
   ⟨by decide, by decide,
    (C8_write_read_round_trip false xen_pt_msgctrl_reg 0 0x0010 0 0xFFFF
        0x2000 0xFFFF 13).2 (by decide) (by decide) (by decide)⟩⟩

/-! ## MSI capability state (`XenPTMSI`) and its register handlers

The external interrupt backend calls (`xen_pt_msi_setup`,
`xen_pt_msi_update`, `xen_pt_msi_disable`, defined in another translation
unit) are modelled by boolean outcome parameters / a call marker. -/

structure XenPTMSI where
  flags : Nat
  initialized : Bool
  mapped : Bool
  addr_lo : Nat := 0
  addr_hi : Nat := 0
  msi_data : Nat := 0
deriving DecidableEq

/-- Result of a special-purpose register write handler: the C return code,
the new software copy (`*data`), the value handed back to the caller
(`*val`), the new MSI state, and whether the external backend was asked to
disable or update. -/
structure MsiWriteResult where
  rc : Int
  data : Nat
  val : Nat
  msi : XenPTMSI
  disable_called : Bool := false
  update_called : Bool := false
deriving DecidableEq

/-- `xen_pt_msgctrl_reg_write`.  `setup_ok` and `update_ok` are the outcomes
of the external `xen_pt_msi_setup` / `xen_pt_msi_update` backend calls. -/
def xen_pt_msgctrl_reg_write (permissive setup_ok update_ok : Bool)
    (msi : XenPTMSI) (reg : XenPTRegInfo) (data val dev_value valid_mask :
    Nat) : MsiWriteResult :=
  let throughable_mask := get_throughable_mask 16 permissive reg valid_mask
  let writable_mask := reg.emu_mask &&& complW 16 reg.ro_mask &&& valid_mask
  let data' := mergeValue 16 val data writable_mask
  let msi := { msi with
    flags := msi.flags ||| (data' &&& complW 16 PCI_MSI_FLAGS_ENABLE) }
  let val' := mergeValue 16 val dev_value throughable_mask
  if val' &&& PCI_MSI_FLAGS_ENABLE ≠ 0 then
    if !msi.initialized then
      if !setup_ok then
        { rc := 0, data := data', val := val' &&& complW 16
            PCI_MSI_FLAGS_ENABLE, msi := msi }
      else if !update_ok then
        { rc := 0, data := data', val := val' &&& complW 16
            PCI_MSI_FLAGS_ENABLE, msi := msi }
      else
        let msi := { msi with initialized := true, mapped := true }
        let msi := { msi with flags := msi.flags ||| PCI_MSI_FLAGS_ENABLE }
        { rc := 0, data := data', val := val', msi := msi }
    else
      { rc := 0, data := data', val := val',
        msi := { msi with flags := msi.flags ||| PCI_MSI_FLAGS_ENABLE } }
  else if msi.mapped then
    { rc := 0, data := data', val := val', msi := msi,
      disable_called := true }
  else
    { rc := 0, data := data', val := val', msi := msi }

/-- `xen_pt_msgaddr64_reg_init`: reports the not-present sentinel when the
MSI capability's 64-bit-address flag is clear. -/
def xen_pt_msgaddr64_reg_init (msi_flags : Nat) (reg : XenPTRegInfo) :
    Nat :=
  if msi_flags &&& PCI_MSI_FLAGS_64BIT = 0 then XEN_PT_INVALID_REG
  else reg.init_val

/-- `xen_pt_msgaddr64_reg_write`. -/
def xen_pt_msgaddr64_reg_write (msi : XenPTMSI) (reg : XenPTRegInfo)
    (data val dev_value valid_mask : Nat) : MsiWriteResult :=
  let old_addr := data
  if msi.flags &&& PCI_MSI_FLAGS_64BIT = 0 then
    { rc := -1, data := data, val := val, msi := msi }
  else
    let writable_mask :=
      reg.emu_mask &&& complW 32 reg.ro_mask &&& valid_mask
    let data' := mergeValue 32 val data writable_mask
    let msi := { msi with addr_hi := data' }
    let val' := mergeValue 32 val dev_value 0
    { rc := 0, data := data', val := val', msi := msi,
      update_called := data' ≠ old_addr && msi.mapped }

/-! ## Attach-time register initialization (`xen_pt_config_reg_init`)

The slice after the `reg->init` call: `data` is the initializer-computed
value, `host_val` the raw register value just read from the host device
(`none` = host read failed).  The result is what happens to the register:
attach failure, "not present" (no `XenPTReg` materialized), or a
`XenPTReg` created with the given value synced into the guest-visible
configuration buffer (`dev.config`). -/

inductive ConfigRegOutcome where
  | fail : ConfigRegOutcome
  | notPresent : ConfigRegOutcome
  | created (synced : Nat) : ConfigRegOutcome
deriving DecidableEq

def xen_pt_config_reg_init (reg : XenPTRegInfo) (init_data : Option Nat)
    (host_val : Option Nat) : ConfigRegOutcome :=
  match init_data with
  | none => .fail
  | some data =>
    if data = XEN_PT_INVALID_REG then .notPresent
    else
      match host_val with
      | none => .fail
      | some val =>
        let size_mask := 0xFFFFFFFF >>> ((4 - reg.size) <<< 3)
        let host_mask := size_mask &&& complW 32 reg.emu_mask
        let val' :=
          if data &&& host_mask ≠ val &&& host_mask then
            (val &&& host_mask) ||| (data &&& host_mask)
              ||| ((val ||| data) &&& complW 32 size_mask)
          else data
        if val' &&& complW 32 size_mask ≠ 0 then .fail
        else .created val'

/-- `xen_pt_status_reg_init`: the initializer of the Status register.
`cap_ptr_half_word` is the 16-bit word read from the guest-visible buffer
at the (already initialized) Capabilities Pointer register's location
(`*reg_entry->ptr.half_word`); `none` models the fatal-error paths where
the Header group or the Capabilities Pointer register is not found. -/
def xen_pt_status_reg_init (cap_ptr_half_word : Option Nat) : Option Nat :=
  match cap_ptr_half_word with
  | none => none
  | some w => some (if w ≠ 0 then PCI_STATUS_CAP_LIST else 0)

theorem land_one_ne_zero_iff {x : Nat} : x &&& 1 ≠ 0 ↔ x.testBit 0 = true := by
  rw [Nat.and_one_is_mod, Nat.testBit_zero, decide_eq_true_iff]
  omega

/-- C6 (confirmed): a guest write that sets the MSI enable flag while the
vector is not yet set up, when the backend setup or bind step fails, makes
the control-register write handler clear the enable bit in the value it
hands back and report success (0); the backend failure is never propagated
as an error. -/
theorem C6_msi_enable_soft_failure (permissive setup_ok update_ok : Bool)
    (msi : XenPTMSI) (data val dev_value valid_mask : Nat)
    (hinit : msi.initialized = false) (hmapped : msi.mapped = false)
    (hval : val.testBit 0 = true) (hvalid : valid_mask.testBit 0 = true)
    (hfail : setup_ok = false ∨ update_ok = false) :
    (xen_pt_msgctrl_reg_write permissive setup_ok update_ok msi
        xen_pt_msgctrl_reg data val dev_value valid_mask).rc = 0
    ∧ ((xen_pt_msgctrl_reg_write permissive setup_ok update_ok msi
        xen_pt_msgctrl_reg data val dev_value valid_mask).val).testBit 0
      = false := by
  have htm : (get_throughable_mask 16 permissive xen_pt_msgctrl_reg
      valid_mask).testBit 0 = true := by
    rw [testBit_get_throughable_mask permissive _ _ (by norm_num)]
    cases permissive <;>
      simp [throughableBit, xen_pt_msgctrl_reg, hvalid] <;> decide
  have hbit : (mergeValue 16 val dev_value
      (get_throughable_mask 16 permissive xen_pt_msgctrl_reg
        valid_mask)).testBit 0 = true := by
    rw [testBit_mergeValue (by norm_num)]
    simp [htm, hval]
  have hcond : mergeValue 16 val dev_value
      (get_throughable_mask 16 permissive xen_pt_msgctrl_reg valid_mask)
        &&& PCI_MSI_FLAGS_ENABLE ≠ 0 := by
    rw [PCI_MSI_FLAGS_ENABLE, land_one_ne_zero_iff]
    exact hbit
  have hclr : ∀ x : Nat, (x &&& complW 16 PCI_MSI_FLAGS_ENABLE).testBit 0
      = false := by
    intro x
    rw [Nat.testBit_land, testBit_complW (by norm_num)]
    simp [PCI_MSI_FLAGS_ENABLE]
  rcases hfail with hs | hu
  · subst hs
    simp only [xen_pt_msgctrl_reg_write, hinit, if_pos hcond]
    simp [hclr]
  · subst hu
    cases setup_ok <;>
      · simp only [xen_pt_msgctrl_reg_write, hinit, if_pos hcond]
        simp [hclr]

theorem C6_msi_enable_soft_failure_witness :
    ({ flags := 0, initialized := false, mapped := false } :
        XenPTMSI).initialized = false
    ∧ ({ flags := 0, initialized := false, mapped := false } :
        XenPTMSI).mapped = false
    ∧ Nat.testBit 1 0 = true
    ∧ Nat.testBit 0xFFFF 0 = true
    ∧ (false = false ∨ true = false)
    ∧ (xen_pt_msgctrl_reg_write false false true
        { flags := 0, initialized := false, mapped := false }
        xen_pt_msgctrl_reg 0 1 0 0xFFFF).rc = 0
    ∧ ((xen_pt_msgctrl_reg_write false false true
        { flags := 0, initialized := false, mapped := false }
        xen_pt_msgctrl_reg 0 1 0 0xFFFF).val).testBit 0 = false := by
  refine ⟨rfl, rfl, by decide, by decide, Or.inl rfl, ?_⟩
  exact C6_msi_enable_soft_failure false false true
    { flags := 0, initialized := false, mapped := false } 0 1 0 0xFFFF rfl
    rfl (by decide) (by decide) (Or.inl rfl)

/-- C9 (confirmed): when the MSI capability's 64-bit-address flag is clear,
the Message Upper Address initializer reports the not-present sentinel, so
`xen_pt_config_reg_init` materializes no register for it; and a write
reaching the upper-address write handler in that state is rejected with an
error (`rc = -1`) without modifying the software copy, the cached MSI
address/data state, or calling the backend. -/
theorem C9_msgaddr64_not_materialized (msi : XenPTMSI)
    (data val dev_value valid_mask : Nat) (host_val : Option Nat)
    (h : msi.flags &&& PCI_MSI_FLAGS_64BIT = 0) :
    xen_pt_msgaddr64_reg_init msi.flags xen_pt_msgaddr64_reg
        = XEN_PT_INVALID_REG
    ∧ xen_pt_config_reg_init xen_pt_msgaddr64_reg
        (some (xen_pt_msgaddr64_reg_init msi.flags xen_pt_msgaddr64_reg))
        host_val = .notPresent
    ∧ (xen_pt_msgaddr64_reg_write msi xen_pt_msgaddr64_reg data val
        dev_value valid_mask).rc = -1
    ∧ (xen_pt_msgaddr64_reg_write msi xen_pt_msgaddr64_reg data val
        dev_value valid_mask).data = data
    ∧ (xen_pt_msgaddr64_reg_write msi xen_pt_msgaddr64_reg data val
        dev_value valid_mask).msi = msi
    ∧ (xen_pt_msgaddr64_reg_write msi xen_pt_msgaddr64_reg data val
        dev_value valid_mask).update_called = false := by
  have hinit : xen_pt_msgaddr64_reg_init msi.flags xen_pt_msgaddr64_reg
      = XEN_PT_INVALID_REG := by
    simp [xen_pt_msgaddr64_reg_init, h]
  refine ⟨hinit, ?_, ?_, ?_, ?_, ?_⟩ <;>
    simp [xen_pt_config_reg_init, xen_pt_msgaddr64_reg_write, hinit, h]

theorem C9_msgaddr64_not_materialized_witness :
    ({ flags := 0, initialized := false, mapped := false } :
          XenPTMSI).flags &&& PCI_MSI_FLAGS_64BIT = 0
    ∧ xen_pt_config_reg_init xen_pt_msgaddr64_reg
        (some (xen_pt_msgaddr64_reg_init
          ({ flags := 0, initialized := false, mapped := false } :
            XenPTMSI).flags xen_pt_msgaddr64_reg)) (some 0)
        = .notPresent := by
  refine ⟨by decide, ?_⟩
  exact (C9_msgaddr64_not_materialized
    { flags := 0, initialized := false, mapped := false } 0 0 0 0 (some 0)
    (by decide)).2.1

/-- C2 (code bug): at attach time, when the initializer-computed value
(Status register: `0x0010`, the emulated Capability-List bit) and the
host's raw value (`0x0200`) differ on a bit outside the emulated mask, the
synced value is `0x0200`: the emulated bit 4, which the claim (and the
code's own comment "Merge emulated ones") says must come from the
initializer-computed value, is dropped from the guest-visible buffer
(`new_val |= data & host_mask` masks with the non-emulated mask). -/
theorem C2_sync_drops_emulated_bits :
    xen_pt_config_reg_init xen_pt_status_reg (some 0x0010) (some 0x0200)
        = .created 0x0200
    ∧ xen_pt_status_reg.emu_mask.testBit 4 = true
    ∧ Nat.testBit 0x0010 4 = true
    ∧ Nat.testBit 0x0200 4 = false
    ∧ (0x0010 : Nat) &&& (0xFFFF &&& complW 32 xen_pt_status_reg.emu_mask)
        ≠ 0x0200 &&& (0xFFFF &&& complW 32 xen_pt_status_reg.emu_mask) := by
  refine ⟨by decide, by decide, by decide, by decide, by decide⟩

/-- C10 (code bug): after attach, the guest-visible Status register need
not have its Capability-List bit set even though the emulated Capabilities
Pointer is non-zero.  Concretely: the Capabilities Pointer register syncs
to `0x40`; the Status initializer then computes `0x0010`; but syncing
against a host status of `0x0200` drops the emulated bit, leaving `0x0200`
(Capability-List bit clear) in the guest-visible buffer while the pointer
is non-zero.  The write-preservation half of the claim does hold: the
generic word write never changes bit 4 of the Status software copy. -/
theorem C10_cap_list_correspondence_broken :
    xen_pt_config_reg_init xen_pt_cap_ptr_reg (some 0x40) (some 0x50)
        = .created 0x40
    ∧ xen_pt_status_reg_init (some 0x40) = some PCI_STATUS_CAP_LIST
    ∧ xen_pt_config_reg_init xen_pt_status_reg (some PCI_STATUS_CAP_LIST)
        (some 0x0200) = .created 0x0200
    ∧ (0x0200 : Nat) &&& PCI_STATUS_CAP_LIST = 0
    ∧ (0x40 : Nat) ≠ 0
    ∧ ∀ (permissive : Bool) (data val dev_value valid_mask : Nat),
        ((xen_pt_word_reg_write permissive xen_pt_status_reg data val
          dev_value valid_mask).1).testBit 4 = data.testBit 4 := by
  refine ⟨by decide, by decide, by decide, by decide, by decide, ?_⟩
  intro permissive data val dev_value valid_mask
  simp only [xen_pt_word_reg_write]
  rw [testBit_mergeValue (by norm_num)]
  have : (xen_pt_status_reg.emu_mask &&& complW 16 xen_pt_status_reg.ro_mask
      &&& valid_mask).testBit 4 = false := by
    rw [Nat.testBit_land, Nat.testBit_land, testBit_complW (by norm_num)]
    have hro : xen_pt_status_reg.ro_mask.testBit 4 = true := by decide
    simp [hro]
  rw [this]
  simp

/-! ## Claim C4: the legacy capability-list walk
(`xen_host_pci_find_next_cap`)

`host` is the byte-read oracle (`xen_host_pci_get_byte`).  The C loop
`while (max_cap--)` is fuel-bounded recursion; `none` from the recursive
core means the 48-iteration bound was exhausted (the C function then falls
through to `return 0`), `some r` means the loop exited explicitly with
result `r` (a `return` or a `break`, the latter yielding 0). -/

def xen_host_pci_find_next_cap_aux (host : Nat → Option Nat) (cap : Nat) :
    Nat → Nat → Option Nat
  | 0, _ => none
  | fuel + 1, curpos =>
    match host curpos with
    | none => some 0
    | some next =>
      if next = 0 then some 0
      else if cap = CAP_ID_ANY then some next
      else
        match host (next + PCI_CAP_LIST_ID) with
        | none => some 0
        | some id =>
          if id = 0xFF then some 0
          else if id = cap then some next
          else
            xen_host_pci_find_next_cap_aux host cap fuel
              ((next + PCI_CAP_LIST_NEXT) % 256)

def xen_host_pci_find_next_cap (host : Nat → Option Nat) (pos cap : Nat) :
    Nat :=
  match host PCI_STATUS with
  | none => 0
  | some status =>
    if status &&& PCI_STATUS_CAP_LIST = 0 then 0
    else
      let curpos :=
        if pos < PCI_CAPABILITY_LIST then PCI_CAPABILITY_LIST else pos % 256
      (xen_host_pci_find_next_cap_aux host cap XEN_HOST_PCI_CAP_MAX
        curpos).getD 0

/-- Number of loop iterations (next-pointer hops) the walk performs. -/
def find_next_cap_hops (host : Nat → Option Nat) (cap : Nat) :
    Nat → Nat → Nat
  | 0, _ => 0
  | fuel + 1, curpos =>
    match host curpos with
    | none => 1
    | some next =>
      if next = 0 then 1
      else if cap = CAP_ID_ANY then 1
      else
        match host (next + PCI_CAP_LIST_ID) with
        | none => 1
        | some id =>
          if id = 0xFF then 1
          else if id = cap then 1
          else
            1 + find_next_cap_hops host cap fuel
              ((next + PCI_CAP_LIST_NEXT) % 256)

/-- One hop of the host's raw capability chain, as the walk advances its
cursor: read the next pointer at the cursor; a zero next pointer ends the
chain, otherwise the cursor moves to the next capability's next-pointer
byte. -/
def capChainStep (host : Nat → Option Nat) (p : Nat) : Option Nat :=
  match host p with
  | none => none
  | some next => if next = 0 then none else some ((next + PCI_CAP_LIST_NEXT) % 256)

def capChainPos (host : Nat → Option Nat) : Nat → Nat → Option Nat
  | 0, start => some start
  | k + 1, start => (capChainStep host start).bind (capChainPos host k)

theorem find_next_cap_hops_le (host : Nat → Option Nat) (cap : Nat) :
    ∀ fuel start, find_next_cap_hops host cap fuel start ≤ fuel := by
  intro fuel
  induction fuel with
  | zero => intro start; simp [find_next_cap_hops]
  | succ n ih =>
    intro start
    simp only [find_next_cap_hops]
    cases host start with
    | none =>
      show (1 : Nat) ≤ n + 1
      omega
    | some next =>
      by_cases h0 : next = 0
      · simp [h0]
      · by_cases hany : cap = CAP_ID_ANY
        · simp [h0, hany]
        · simp only [h0, hany, if_false]
          cases host (next + PCI_CAP_LIST_ID) with
          | none =>
            show (1 : Nat) ≤ n + 1
            omega
          | some id =>
            by_cases hff : id = 0xFF
            · simp [hff]
            · by_cases hc : id = cap
              · simp [hff, hc]
              · simp only [hff, hc, if_false]
                have := ih ((next + PCI_CAP_LIST_NEXT) % 256)
                omega

theorem find_next_cap_aux_isSome_of_reaches_zero (host : Nat → Option Nat)
    (cap : Nat) :
    ∀ fuel k start, k < fuel →
      (∃ p, capChainPos host k start = some p ∧ host p = some 0) →
      (xen_host_pci_find_next_cap_aux host cap fuel start).isSome = true := by
  intro fuel
  induction fuel with
  | zero => intro k start hk; omega
  | succ n ih =>
    intro k start hk hreach
    obtain ⟨p, hchain, hzero⟩ := hreach
    cases k with
    | zero =>
      simp only [capChainPos, Option.some.injEq] at hchain
      subst hchain
      simp [xen_host_pci_find_next_cap_aux, hzero]
    | succ j =>
      simp only [capChainPos] at hchain
      cases hstep : capChainStep host start with
      | none => rw [hstep] at hchain; simp at hchain
      | some q =>
        rw [hstep] at hchain
        simp only [Option.some_bind] at hchain
        simp only [capChainStep] at hstep
        cases hrd : host start with
        | none => rw [hrd] at hstep; simp at hstep
        | some next =>
          rw [hrd] at hstep
          by_cases h0 : next = 0
          · simp [h0] at hstep
          · simp only [h0, if_false, Option.some.injEq] at hstep
            simp only [xen_host_pci_find_next_cap_aux, hrd, h0, if_false]
            by_cases hany : cap = CAP_ID_ANY
            · simp [hany]
            · simp only [hany, if_false]
              cases host (next + PCI_CAP_LIST_ID) with
              | none => simp
              | some id =>
                by_cases hff : id = 0xFF
                · simp [hff]
                · by_cases hc : id = cap
                  · subst hc
                    simp [hff]
                  · simp only [hff, hc, if_false]
                    rw [hstep]
                    exact ih j q (by omega) ⟨p, hchain, hzero⟩

/-- A host whose legacy capability list is cyclic: the capability at `0x40`
points back to itself; the searched id `0x11` never appears and the next
pointer never becomes zero. -/
def cyclicCapHost : Nat → Option Nat := fun a =>
  if a = PCI_STATUS then some PCI_STATUS_CAP_LIST
  else if a = PCI_CAPABILITY_LIST then some 0x40
  else if a = 0x40 then some 0x05
  else if a = 0x41 then some 0x40
  else some 0

/-- A host with a well-formed two-entry list `0x34 → 0x50 → 0`. -/
def wellFormedCapHost : Nat → Option Nat := fun a =>
  if a = PCI_STATUS then some PCI_STATUS_CAP_LIST
  else if a = PCI_CAPABILITY_LIST then some 0x50
  else if a = 0x50 then some 0x05
  else if a = 0x51 then some 0x00
  else some 0

/-- C4 (confirmed): the legacy capability walk performs at most 48
next-pointer hops and always terminates, for every host and start
position; when the host list is well formed — a zero next pointer is
reachable within the 48-hop budget — the loop exits explicitly (the hop
limit is never exhausted); and on a concrete cyclic host list the walk
exhausts its hop bound and returns 0, i.e. "no more capabilities". -/
theorem C4_cap_walk_bounded (host : Nat → Option Nat) (pos cap : Nat) :
    (find_next_cap_hops host cap XEN_HOST_PCI_CAP_MAX
        (if pos < PCI_CAPABILITY_LIST then PCI_CAPABILITY_LIST else pos % 256)
      ≤ 48)
    ∧ ((∃ k, k < XEN_HOST_PCI_CAP_MAX ∧ ∃ p,
          capChainPos host k
              (if pos < PCI_CAPABILITY_LIST then PCI_CAPABILITY_LIST
               else pos % 256) = some p
            ∧ host p = some 0) →
        (xen_host_pci_find_next_cap_aux host cap XEN_HOST_PCI_CAP_MAX
          (if pos < PCI_CAPABILITY_LIST then PCI_CAPABILITY_LIST
           else pos % 256)).isSome = true)
    ∧ xen_host_pci_find_next_cap_aux cyclicCapHost 0x11 XEN_HOST_PCI_CAP_MAX
        PCI_CAPABILITY_LIST = none
    ∧ xen_host_pci_find_next_cap cyclicCapHost 0 0x11 = 0 := by
  refine ⟨find_next_cap_hops_le host cap XEN_HOST_PCI_CAP_MAX _, ?_,
    by decide, by decide⟩
  rintro ⟨k, hk, hp⟩
  exact find_next_cap_aux_isSome_of_reaches_zero host cap
    XEN_HOST_PCI_CAP_MAX k _ hk hp

theorem C4_cap_walk_bounded_witness :
    (∃ k, k < XEN_HOST_PCI_CAP_MAX ∧ ∃ p,
        capChainPos wellFormedCapHost k
            (if (0 : Nat) < PCI_CAPABILITY_LIST then PCI_CAPABILITY_LIST
             else 0 % 256) = some p
          ∧ wellFormedCapHost p = some 0)
    ∧ (xen_host_pci_find_next_cap_aux wellFormedCapHost 0x11
        XEN_HOST_PCI_CAP_MAX
        (if (0 : Nat) < PCI_CAPABILITY_LIST then PCI_CAPABILITY_LIST
         else 0 % 256)).isSome = true := by
  have hx : ∃ k, k < XEN_HOST_PCI_CAP_MAX ∧ ∃ p,
      capChainPos wellFormedCapHost k
          (if (0 : Nat) < PCI_CAPABILITY_LIST then PCI_CAPABILITY_LIST
           else 0 % 256) = some p
        ∧ wellFormedCapHost p = some 0 :=
    ⟨1, by decide, 0x51, by decide, by decide⟩
  exact ⟨hx, (C4_cap_walk_bounded wellFormedCapHost 0 0x11).2.1 hx⟩

/-! ## Claim C3: variable-size extended-capability resolvers

PCI constants from the headers (standard values), then the five resolvers.
`hostLong`/`hostWord` oracles model `xen_host_pci_get_long`/`get_word`. -/

def PCI_DPA_CAP : Nat := 4

def PCI_DPA_CAP_SUBSTATE_MASK : Nat := 0x1F

def PCI_DPA_BASE_SIZEOF : Nat := 0x10

def PCI_TPH_CAP : Nat := 4

def PCI_TPH_CAP_LOC_MASK : Nat := 0x600

def PCI_TPH_LOC_CAP : Nat := 0x200

def PCI_TPH_CAP_ST_MASK : Nat := 0x07FF0000

def PCI_TPH_CAP_ST_SHIFT : Nat := 16

def PCI_TPH_BASE_SIZEOF : Nat := 0xC

def PCI_EXP_DPC_CAP : Nat := 4

def PCI_EXP_DPC_CAP_RP_EXT : Nat := 0x20

def PCI_EXP_DPC_RP_PIO_LOG_SIZE : Nat := 0xF00

def PCI_VC_PORT_CAP1 : Nat := 4

def PCI_VC_PORT_CAP2 : Nat := 8

def PCI_VC_RES_CAP : Nat := 0x10

def PCI_VC_CAP1_EVCC : Nat := 0x7

def PCI_VC_CAP1_ARB_SIZE : Nat := 0xC00

def PCI_CAP_VC_BASE_SIZEOF : Nat := 0x10

def PCI_CAP_VC_PER_VC_SIZEOF : Nat := 0xC

def PCI_EXT_CAP_ID_VC : Nat := 0x02

def PCI_EXT_CAP_ID_MFVC : Nat := 0x08

def PCI_EXT_CAP_ID_VC9 : Nat := 0x09

def PCI_EXT_CAP_ID_REBAR : Nat := 0x15

def PCI_EXT_CAP_ID (header : Nat) : Nat := header &&& 0x0000FFFF

def PCI_EXT_CAP_NEXT (header : Nat) : Nat := (header >>> 20) &&& 0xFFC

def QEMU_ALIGN_UP (n m : Nat) : Nat := (n + m - 1) / m * m

/-- `xen_pt_ext_cap_dpa_size_init` (Dynamic Power Allocation). -/
def xen_pt_ext_cap_dpa_size (hostLong : Nat → Option Nat)
    (base_offset : Nat) : Option Nat :=
  match hostLong (base_offset + PCI_DPA_CAP) with
  | none => none
  | some dpa_caps =>
    let num_entries := (dpa_caps &&& PCI_DPA_CAP_SUBSTATE_MASK) + 1
    some (PCI_DPA_BASE_SIZEOF + num_entries)

/-- `xen_pt_ext_cap_tph_size_init` (TPH Requester). -/
def xen_pt_ext_cap_tph_size (hostLong : Nat → Option Nat)
    (base_offset : Nat) : Option Nat :=
  match hostLong (base_offset + PCI_TPH_CAP) with
  | none => none
  | some tph_caps =>
    let num_entries :=
      if tph_caps &&& PCI_TPH_CAP_LOC_MASK = PCI_TPH_LOC_CAP then
        ((tph_caps &&& PCI_TPH_CAP_ST_MASK) >>> PCI_TPH_CAP_ST_SHIFT) + 1
      else 0
    some (PCI_TPH_BASE_SIZEOF + num_entries * 2)

/-- `xen_pt_ext_cap_dpc_size_init` (Downstream Port Containment). -/
def xen_pt_ext_cap_dpc_size (hostWord : Nat → Option Nat)
    (base_offset : Nat) : Option Nat :=
  match hostWord (base_offset + PCI_EXP_DPC_CAP) with
  | none => none
  | some dpc_caps =>
    some (if dpc_caps &&& PCI_EXP_DPC_CAP_RP_EXT ≠ 0 then
        0x20 + ((dpc_caps &&& PCI_EXP_DPC_RP_PIO_LOG_SIZE) >>> 8) * 4
      else 0xC)

/-- `xen_pt_ext_cap_pmux_size_init` (Protocol Multiplexing);
`PMUX_GET_NUM_ENTRIES(x) = x & 0x3F`. -/
def xen_pt_ext_cap_pmux_size (hostLong : Nat → Option Nat)
    (base_offset : Nat) : Option Nat :=
  match hostLong (base_offset + 4) with
  | none => none
  | some pmux_caps =>
    some (0x10 + (pmux_caps &&& 0x3F) * 4)

/-- The `for (n_bit = 7; n_bit >= 0 && !(arb_cap & (1 << n_bit)); n_bit--)`
scan of `get_arb_table_len_max`: highest set bit among positions `n` down
to 0 (callers pass an 8-bit value, scanned from bit 7). -/
def findTopBit : Nat → Nat → Nat
  | 0, _ => 0
  | n + 1, a => if a.testBit (n + 1) then n + 1 else findTopBit n a

/-- `get_arb_table_len_max` (the `max_bit_supported` argument only controls
a log message in the C). -/
def get_arb_table_len_max (max_bit_supported arb_cap : Nat) : Nat :=
  if arb_cap = 0 then 0
  else
    let _ := max_bit_supported
    match findTopBit 7 arb_cap with
    | 0 => 0
    | 1 => 32
    | 2 => 64
    | 3 => 128
    | 4 => 128
    | n => 8 <<< n

def GET_ARB_TABLE_OFFSET (x : Nat) : Nat := (x >>> 24) * 0x10

def GET_VC_ARB_CAPABILITY (x : Nat) : Nat := x &&& 0xFF

def ARB_TABLE_ENTRY_SIZE_BITS (x : Nat) : Nat :=
  1 <<< ((x &&& PCI_VC_CAP1_ARB_SIZE) >>> 10)

/-- The arbitration-table range check of `xen_pt_ext_cap_vchan_size_init`:
an offset at or past the remaining budget is logged and skipped (treated as
"no arbitration table"), not failed. -/
def vchan_checked_arb_start (arb_table_start_max vc_cap_max_size : Nat) :
    Nat :=
  if arb_table_start_max ≥ vc_cap_max_size then 0 else arb_table_start_max

/-- The VC Resource entry loop of `xen_pt_ext_cap_vchan_size_init`,
processing `count` remaining entries starting at index `i`, carrying
`(arb_table_start_max, arb_table_end_max)`. -/
def xen_pt_vchan_loop (hostLong : Nat → Option Nat)
    (base_offset vc_cap_max_size arb_table_entry_size : Nat) :
    Nat → Nat → Nat → Nat → Option (Nat × Nat)
  | 0, _, start_max, end_max => some (start_max, end_max)
  | count + 1, i, start_max, end_max =>
    match hostLong (base_offset + PCI_VC_RES_CAP
        + i * PCI_CAP_VC_PER_VC_SIZEOF) with
    | none => none
    | some vc_rsrc_cap =>
      let arb_table_offset := GET_ARB_TABLE_OFFSET vc_rsrc_cap
      if arb_table_offset > start_max then
        if arb_table_offset ≥ vc_cap_max_size then
          xen_pt_vchan_loop hostLong base_offset vc_cap_max_size
            arb_table_entry_size count (i + 1) start_max end_max
        else
          let vc_arb_cap := GET_VC_ARB_CAPABILITY vc_rsrc_cap
          let num_phases := get_arb_table_len_max 5 vc_arb_cap
          let arb_tbl_sz :=
            QEMU_ALIGN_UP (num_phases * arb_table_entry_size) 32 / 8
          xen_pt_vchan_loop hostLong base_offset vc_cap_max_size
            arb_table_entry_size count (i + 1) arb_table_offset
            (base_offset + arb_table_offset + arb_tbl_sz)
      else
        xen_pt_vchan_loop hostLong base_offset vc_cap_max_size
          arb_table_entry_size count (i + 1) start_max end_max

/-- `xen_pt_ext_cap_vchan_size_init` (VC / VC9 / MFVC). -/
def xen_pt_ext_cap_vchan_size (hostLong : Nat → Option Nat)
    (base_offset : Nat) : Option Nat :=
  match hostLong base_offset with
  | none => none
  | some header =>
    if PCI_EXT_CAP_ID header = PCI_EXT_CAP_ID_VC
        ∨ PCI_EXT_CAP_ID header = PCI_EXT_CAP_ID_VC9
        ∨ PCI_EXT_CAP_ID header = PCI_EXT_CAP_ID_MFVC then
      let next_ptr := PCI_EXT_CAP_NEXT header
      let vc_cap_max_size :=
        if next_ptr ≠ 0 ∧ next_ptr > base_offset then next_ptr - base_offset
        else PCIE_CONFIG_SPACE_SIZE - base_offset
      match hostLong (base_offset + PCI_VC_PORT_CAP1) with
      | none => none
      | some port_vc_cap1 =>
        match hostLong (base_offset + PCI_VC_PORT_CAP2) with
        | none => none
        | some port_vc_cap2 =>
          let ext_vc_count := port_vc_cap1 &&& PCI_VC_CAP1_EVCC
          let arb_table_start_max :=
            vchan_checked_arb_start (GET_ARB_TABLE_OFFSET port_vc_cap2)
              vc_cap_max_size
          let arb_table_end_max :=
            if arb_table_start_max ≠ 0 then
              base_offset + arb_table_start_max
                + QEMU_ALIGN_UP
                    (get_arb_table_len_max 3
                      (GET_VC_ARB_CAPABILITY port_vc_cap2) * 4) 32 / 8
            else 0
          let arb_table_entry_size := ARB_TABLE_ENTRY_SIZE_BITS port_vc_cap1
          match xen_pt_vchan_loop hostLong base_offset vc_cap_max_size
              arb_table_entry_size ext_vc_count 0 arb_table_start_max
              arb_table_end_max with
          | none => none
          | some (_, end_max) =>
            some (if end_max ≠ 0 then end_max - base_offset
              else PCI_CAP_VC_BASE_SIZEOF
                + ext_vc_count * PCI_CAP_VC_PER_VC_SIZEOF)
    else none

theorem vchan_loop_isSome (hostLong : Nat → Option Nat)
    (base_offset vc_cap_max_size arb_table_entry_size : Nat)
    (htotal : ∀ a, (hostLong a).isSome = true) :
    ∀ count i start_max end_max,
      (xen_pt_vchan_loop hostLong base_offset vc_cap_max_size
        arb_table_entry_size count i start_max end_max).isSome = true := by
  intro count
  induction count with
  | zero => intro i s e; simp [xen_pt_vchan_loop]
  | succ n ih =>
    intro i s e
    simp only [xen_pt_vchan_loop]
    cases hc : hostLong (base_offset + PCI_VC_RES_CAP
        + i * PCI_CAP_VC_PER_VC_SIZEOF) with
    | none => have := htotal (base_offset + PCI_VC_RES_CAP
        + i * PCI_CAP_VC_PER_VC_SIZEOF); rw [hc] at this; simp at this
    | some cap =>
      by_cases h1 : GET_ARB_TABLE_OFFSET cap > s
      · by_cases h2 : GET_ARB_TABLE_OFFSET cap ≥ vc_cap_max_size
        · simp only [h1, h2, if_true, if_pos]; exact ih (i + 1) s e
        · simp only [h1, h2, if_true, if_false, if_pos, if_neg h2]
          exact ih (i + 1) _ _
      · simp only [if_neg h1]
        exact ih (i + 1) s e

/-- C3 (counterexample): the Dynamic Power Allocation resolver does not cap
its computed group size at the remaining extended-configuration-space
budget: with the capability at base offset `0xFE0` and a host-reported
substate count field of `0x1F`, the resolved size is `48` bytes while the
remaining budget `4096 - 0xFE0` is only `32` bytes. -/
theorem C3_counterexample :
    xen_pt_ext_cap_dpa_size (fun _ => some 0x1F) 0xFE0 = some 48
    ∧ ¬ 48 ≤ PCIE_CONFIG_SPACE_SIZE - 0xFE0 := by
  refine ⟨by decide, by decide⟩

/-- C3 (amended): the Dynamic Power Allocation, TPH Requester, Downstream
Port Containment and Protocol Multiplexing resolvers compute their group
sizes from the host-read fields by fixed formulas, succeeding for every
host-read value (anomalous host data is never a failure) and without
capping the size to the remaining extended-configuration-space budget;
only the Virtual Channel resolver consults the remaining budget
(4096 minus the base offset, or the distance to a forward next pointer),
and only to range-check arbitration-table offsets — an offset at or past
the budget is skipped (treated as zero), not failed — and the VC resolver
succeeds for every host value whose header carries one of the three known
VC capability ids, provided all host reads succeed. -/
theorem C3_size_resolvers (hostLong : Nat → Option Nat) (base c a m : Nat) :
    (hostLong (base + PCI_DPA_CAP) = some c →
      xen_pt_ext_cap_dpa_size hostLong base
        = some (PCI_DPA_BASE_SIZEOF + ((c &&& PCI_DPA_CAP_SUBSTATE_MASK) + 1)))
    ∧ (hostLong (base + PCI_TPH_CAP) = some c →
      xen_pt_ext_cap_tph_size hostLong base
        = some (PCI_TPH_BASE_SIZEOF +
            (if c &&& PCI_TPH_CAP_LOC_MASK = PCI_TPH_LOC_CAP then
              ((c &&& PCI_TPH_CAP_ST_MASK) >>> PCI_TPH_CAP_ST_SHIFT) + 1
            else 0) * 2))
    ∧ (hostLong (base + PCI_EXP_DPC_CAP) = some c →
      xen_pt_ext_cap_dpc_size hostLong base
        = some (if c &&& PCI_EXP_DPC_CAP_RP_EXT ≠ 0 then
            0x20 + ((c &&& PCI_EXP_DPC_RP_PIO_LOG_SIZE) >>> 8) * 4
          else 0xC))
    ∧ (hostLong (base + 4) = some c →
      xen_pt_ext_cap_pmux_size hostLong base
        = some (0x10 + (c &&& 0x3F) * 4))
    ∧ (vchan_checked_arb_start a m = 0 ∨ vchan_checked_arb_start a m < m)
    ∧ ((∀ x, (hostLong x).isSome = true) →
        (∃ header, hostLong base = some header
          ∧ (PCI_EXT_CAP_ID header = PCI_EXT_CAP_ID_VC
            ∨ PCI_EXT_CAP_ID header = PCI_EXT_CAP_ID_VC9
            ∨ PCI_EXT_CAP_ID header = PCI_EXT_CAP_ID_MFVC)) →
        (xen_pt_ext_cap_vchan_size hostLong base).isSome = true) := by
  refine ⟨fun h => ?_, fun h => ?_, fun h => ?_, fun h => ?_, ?_, ?_⟩
  · simp [xen_pt_ext_cap_dpa_size, h]
  · simp only [xen_pt_ext_cap_tph_size, h]
  · simp only [xen_pt_ext_cap_dpc_size, h]
  · simp [xen_pt_ext_cap_pmux_size, h]
  · by_cases hc : a ≥ m
    · left; simp [vchan_checked_arb_start, hc]
    · right; simp only [vchan_checked_arb_start, if_neg hc]; omega
  · rintro htotal ⟨header, hh, hid⟩
    simp only [xen_pt_ext_cap_vchan_size, hh]
    rw [if_pos hid]
    cases h1 : hostLong (base + PCI_VC_PORT_CAP1) with
    | none => have := htotal (base + PCI_VC_PORT_CAP1)
              rw [h1] at this; simp at this
    | some cap1 =>
      cases h2 : hostLong (base + PCI_VC_PORT_CAP2) with
      | none => have := htotal (base + PCI_VC_PORT_CAP2)
                rw [h2] at this; simp at this
      | some cap2 =>
        dsimp only
        split
        · next heq =>
          exact absurd heq (Option.ne_none_iff_isSome.mpr
            (vchan_loop_isSome hostLong base _ _ htotal _ _ _ _))
        · simp

theorem C3_size_resolvers_witness :
    ((fun _ : Nat => some (2 : Nat)) (0x100 + PCI_DPA_CAP) = some 2
      ∧ xen_pt_ext_cap_dpa_size (fun _ => some 2) 0x100
          = some (PCI_DPA_BASE_SIZEOF +
              (((2 : Nat) &&& PCI_DPA_CAP_SUBSTATE_MASK) + 1)))
    ∧ ((∀ x : Nat, ((fun _ : Nat => some (2 : Nat)) x).isSome = true)
      ∧ (∃ header, (fun _ : Nat => some (2 : Nat)) 0x100 = some header
          ∧ (PCI_EXT_CAP_ID header = PCI_EXT_CAP_ID_VC
            ∨ PCI_EXT_CAP_ID header = PCI_EXT_CAP_ID_VC9
            ∨ PCI_EXT_CAP_ID header = PCI_EXT_CAP_ID_MFVC))
      ∧ (xen_pt_ext_cap_vchan_size (fun _ => some 2) 0x100).isSome
          = true) := by
  refine ⟨⟨rfl, (C3_size_resolvers (fun _ => some 2) 0x100 2 0 0).1 rfl⟩,
    fun _ => rfl, ⟨2, rfl, by decide⟩, ?_⟩
  exact (C3_size_resolvers (fun _ => some 2) 0x100 2 0 0).2.2.2.2.2
    (fun _ => rfl) ⟨2, rfl, by decide⟩

/-! ## Claim C7: register groups and the hidden-capability fake header

The static group table `xen_pt_emu_reg_grps`.  The `grp_id` tagging macros
(`PCIE_EXT_CAP_ID`, the `0xFF` header marker, `XEN_PCI_INTEL_OPREGION`)
live in a header outside the provided sources and are modelled as a sum
type; `size_init` records which size resolver the entry wires in;
`emu_regs = []` models a NULL `emu_regs` pointer. -/

inductive XenPTGrpType where
  | emu : XenPTGrpType
  | hardwired : XenPTGrpType
deriving DecidableEq

inductive XenPTGrpId where
  | header0 : XenPTGrpId
  | intelOpregion : XenPTGrpId
  | legacy (id : Nat) : XenPTGrpId
  | ext (id : Nat) : XenPTGrpId
deriving DecidableEq

inductive XenPTSizeInitKind where
  | regGrp | vendor | msi | msix | pcie | extVendor | aer | rcld | acs
  | multicast | dpa | tph | dpc | pmux | rebar | vchan
deriving DecidableEq

structure XenPTRegGroupInfo where
  grp_id : XenPTGrpId
  grp_type : XenPTGrpType
  grp_size : Nat
  size_init : XenPTSizeInitKind
  emu_regs : List XenPTRegInfo := []
deriving DecidableEq

/-- The Resizable BAR entry: the only Hardwired extended-capability group.
Note the absent `emu_regs` (NULL in the C table). -/
def xen_pt_rebar_grp : XenPTRegGroupInfo :=
  { grp_id := .ext PCI_EXT_CAP_ID_REBAR, grp_type := .hardwired,
    grp_size := 0xFF, size_init := .rebar }

def xen_pt_emu_reg_grps : List XenPTRegGroupInfo :=
  [{ grp_id := .header0, grp_type := .emu, grp_size := 0x40,
     size_init := .regGrp, emu_regs := xen_pt_emu_reg_header0 },
   { grp_id := .legacy 0x01, grp_type := .emu, grp_size := 0x08,
     size_init := .regGrp, emu_regs := xen_pt_emu_reg_pm },
   { grp_id := .legacy 0x02, grp_type := .hardwired, grp_size := 0x30,
     size_init := .regGrp },
   { grp_id := .legacy 0x03, grp_type := .emu, grp_size := 0x08,
     size_init := .regGrp, emu_regs := xen_pt_emu_reg_vpd },
   { grp_id := .legacy 0x04, grp_type := .hardwired, grp_size := 0x04,
     size_init := .regGrp },
   { grp_id := .legacy 0x05, grp_type := .emu, grp_size := 0xFF,
     size_init := .msi, emu_regs := xen_pt_emu_reg_msi },
   { grp_id := .legacy 0x07, grp_type := .hardwired, grp_size := 0x18,
     size_init := .regGrp },
   { grp_id := .legacy 0x09, grp_type := .emu, grp_size := 0xFF,
     size_init := .vendor, emu_regs := xen_pt_emu_reg_vendor },
   { grp_id := .legacy 0x0C, grp_type := .hardwired, grp_size := 0x08,
     size_init := .regGrp },
   { grp_id := .legacy 0x0D, grp_type := .hardwired, grp_size := 0x08,
     size_init := .regGrp },
   { grp_id := .legacy 0x0E, grp_type := .hardwired, grp_size := 0x30,
     size_init := .regGrp },
   { grp_id := .legacy 0x10, grp_type := .emu, grp_size := 0xFF,
     size_init := .pcie, emu_regs := xen_pt_emu_reg_pcie },
   { grp_id := .legacy 0x11, grp_type := .emu, grp_size := 0x0C,
     size_init := .msix, emu_regs := xen_pt_emu_reg_msix },
   { grp_id := .intelOpregion, grp_type := .emu, grp_size := 0x4,
     size_init := .regGrp, emu_regs := xen_pt_emu_reg_igd_opregion },
   { grp_id := .ext 0x0B, grp_type := .emu, grp_size := 0xFF,
     size_init := .extVendor, emu_regs := xen_pt_ext_cap_emu_reg_vendor },
   { grp_id := .ext 0x03, grp_type := .emu, grp_size := 0x0C,
     size_init := .regGrp, emu_regs := xen_pt_ext_cap_emu_reg_dummy },
   { grp_id := .ext 0x04, grp_type := .emu, grp_size := 0x10,
     size_init := .regGrp, emu_regs := xen_pt_ext_cap_emu_reg_dummy },
   { grp_id := .ext 0x06, grp_type := .emu, grp_size := 0x0C,
     size_init := .regGrp, emu_regs := xen_pt_ext_cap_emu_reg_dummy },
   { grp_id := .ext 0x07, grp_type := .emu, grp_size := 0x08,
     size_init := .regGrp, emu_regs := xen_pt_ext_cap_emu_reg_dummy },
   { grp_id := .ext 0x0A, grp_type := .emu, grp_size := 0x14,
     size_init := .regGrp, emu_regs := xen_pt_ext_cap_emu_reg_dummy },
   { grp_id := .ext 0x0C, grp_type := .emu, grp_size := 0x08,
     size_init := .regGrp, emu_regs := xen_pt_ext_cap_emu_reg_dummy },
   { grp_id := .ext 0x0E, grp_type := .emu, grp_size := 0x08,
     size_init := .regGrp, emu_regs := xen_pt_ext_cap_emu_reg_dummy },
   { grp_id := .ext 0x0F, grp_type := .emu, grp_size := 0x08,
     size_init := .regGrp, emu_regs := xen_pt_ext_cap_emu_reg_dummy },
   { grp_id := .ext 0x10, grp_type := .emu, grp_size := 0x40,
     size_init := .regGrp, emu_regs := xen_pt_ext_cap_emu_reg_dummy },
   { grp_id := .ext 0x13, grp_type := .emu, grp_size := 0x10,
     size_init := .regGrp, emu_regs := xen_pt_ext_cap_emu_reg_dummy },
   { grp_id := .ext 0x18, grp_type := .emu, grp_size := 0x08,
     size_init := .regGrp, emu_regs := xen_pt_ext_cap_emu_reg_dummy },
   { grp_id := .ext 0x19, grp_type := .emu, grp_size := 0x10,
     size_init := .regGrp, emu_regs := xen_pt_ext_cap_emu_reg_dummy },
   { grp_id := .ext 0x1B, grp_type := .emu, grp_size := 0x08,
     size_init := .regGrp, emu_regs := xen_pt_ext_cap_emu_reg_dummy },
   { grp_id := .ext 0x1E, grp_type := .emu, grp_size := 0x10,
     size_init := .regGrp, emu_regs := xen_pt_ext_cap_emu_reg_dummy },
   { grp_id := .ext 0x1F, grp_type := .emu, grp_size := 0x0C,
     size_init := .regGrp, emu_regs := xen_pt_ext_cap_emu_reg_dummy },
   { grp_id := .ext 0x20, grp_type := .emu, grp_size := 0x1C,
     size_init := .regGrp, emu_regs := xen_pt_ext_cap_emu_reg_dummy },
   { grp_id := .ext 0x1C, grp_type := .emu, grp_size := 0x08,
     size_init := .regGrp, emu_regs := xen_pt_ext_cap_emu_reg_dummy },
   { grp_id := .ext 0x21, grp_type := .emu, grp_size := 0x10,
     size_init := .regGrp, emu_regs := xen_pt_ext_cap_emu_reg_dummy },
   { grp_id := .ext 0x22, grp_type := .emu, grp_size := 0x0C,
     size_init := .regGrp, emu_regs := xen_pt_ext_cap_emu_reg_dummy },
   { grp_id := .ext 0x01, grp_type := .emu, grp_size := 0xFF,
     size_init := .aer, emu_regs := xen_pt_ext_cap_emu_reg_dummy },
   { grp_id := .ext 0x05, grp_type := .emu, grp_size := 0xFF,
     size_init := .rcld, emu_regs := xen_pt_ext_cap_emu_reg_dummy },
   { grp_id := .ext 0x0D, grp_type := .emu, grp_size := 0xFF,
     size_init := .acs, emu_regs := xen_pt_ext_cap_emu_reg_dummy },
   { grp_id := .ext 0x12, grp_type := .emu, grp_size := 0xFF,
     size_init := .multicast, emu_regs := xen_pt_ext_cap_emu_reg_dummy },
   { grp_id := .ext 0x16, grp_type := .emu, grp_size := 0xFF,
     size_init := .dpa, emu_regs := xen_pt_ext_cap_emu_reg_dummy },
   { grp_id := .ext 0x17, grp_type := .emu, grp_size := 0xFF,
     size_init := .tph, emu_regs := xen_pt_ext_cap_emu_reg_dummy },
   { grp_id := .ext 0x1A, grp_type := .emu, grp_size := 0xFF,
     size_init := .pmux, emu_regs := xen_pt_ext_cap_emu_reg_dummy },
   { grp_id := .ext 0x1D, grp_type := .emu, grp_size := 0xFF,
     size_init := .dpc, emu_regs := xen_pt_ext_cap_emu_reg_dummy },
   xen_pt_rebar_grp,
   { grp_id := .ext 0x02, grp_type := .emu, grp_size := 0xFF,
     size_init := .vchan, emu_regs := xen_pt_ext_cap_emu_reg_dummy },
   { grp_id := .ext 0x09, grp_type := .emu, grp_size := 0xFF,
     size_init := .vchan, emu_regs := xen_pt_ext_cap_emu_reg_dummy },
   { grp_id := .ext 0x08, grp_type := .emu, grp_size := 0xFF,
     size_init := .vchan, emu_regs := xen_pt_ext_cap_emu_reg_dummy }]

/-- `xen_pt_ext_cap_capid_reg_init`: `fake_cap_id` is the `uint16_t`
static counter, `host_word` the capability-id word read from the real
device, `found_grp` the `(grp_type, base_offset)` of the register group
containing the register (`xen_pt_find_reg_grp`).  Returns the initial
register value and the new counter. -/
def xen_pt_ext_cap_capid_reg_init (fake_cap_id host_word : Nat)
    (found_grp : Option (XenPTGrpType × Nat)) : Nat × Nat :=
  match found_grp with
  | some (gt, base) =>
    if gt = .hardwired ∧ base = PCI_CONFIG_SPACE_SIZE then
      (fake_cap_id % 2 ^ 16, (fake_cap_id + 1) % 2 ^ 16)
    else (host_word, fake_cap_id % 2 ^ 16)
  | none => (host_word, fake_cap_id % 2 ^ 16)

/-- The register-materialization condition of `xen_pt_config_init` (lines
3004–3030): registers are instantiated for Emulated groups, and for a
Hardwired group sitting at the fixed extended-capability base `0x100` —
but only from the group's `emu_regs` table, which may be absent. -/
def xen_pt_group_regs_created (g : XenPTRegGroupInfo)
    (reg_grp_offset : Nat) : List XenPTRegInfo :=
  if g.grp_type = .emu
      ∨ (g.grp_type = .hardwired ∧ reg_grp_offset = 0x100) then
    g.emu_regs
  else []

def isExtGrpId : XenPTGrpId → Bool
  | .ext _ => true
  | _ => false

/-- C7 (code bug): the only Hardwired extended-capability group in the
catalog is Resizable BAR, and its `emu_regs` table is absent; hence even
when it sits exactly at the fixed extended-capability base offset `0x100`
— the situation the hiding mechanism and the `xen_pt_config_init`
condition are written for — no register is materialized: its 4-byte header
is not emulated and no fake capability id is ever assigned.  The fake-id
mechanism itself (third conjunct) does return the counter and increment it
when invoked for a Hardwired group at `0x100`, but no such register
exists to invoke it. -/
theorem C7_hidden_cap_header_not_emulated :
    (∀ g ∈ xen_pt_emu_reg_grps, g.grp_type = .hardwired →
      isExtGrpId g.grp_id = true →
      g.grp_id = .ext PCI_EXT_CAP_ID_REBAR ∧ g.emu_regs = [])
    ∧ xen_pt_rebar_grp ∈ xen_pt_emu_reg_grps
    ∧ xen_pt_rebar_grp.grp_type = .hardwired
    ∧ xen_pt_group_regs_created xen_pt_rebar_grp 0x100 = []
    ∧ (∀ c h, xen_pt_ext_cap_capid_reg_init c h
        (some (.hardwired, PCI_CONFIG_SPACE_SIZE))
          = (c % 2 ^ 16, (c + 1) % 2 ^ 16)) := by
  refine ⟨by decide, by decide, by decide, by decide, fun c h => ?_⟩
  simp [xen_pt_ext_cap_capid_reg_init]

theorem C7_hidden_cap_header_not_emulated_witness :
    xen_pt_rebar_grp.grp_type = XenPTGrpType.hardwired
    ∧ isExtGrpId xen_pt_rebar_grp.grp_id = true
    ∧ xen_pt_rebar_grp.grp_id = .ext PCI_EXT_CAP_ID_REBAR
    ∧ xen_pt_rebar_grp.emu_regs = [] := by
  refine ⟨by decide, by decide, ?_, ?_⟩
  · exact ((C7_hidden_cap_header_not_emulated).1 xen_pt_rebar_grp
      (by decide) (by decide) (by decide)).1
  · exact ((C7_hidden_cap_header_not_emulated).1 xen_pt_rebar_grp
      (by decide) (by decide) (by decide)).2
